import Mathlib

/-!
Verification of the package lifecycle orchestrator of webviz-dev-sync
(`webviz_dev_sync/_package_manager.py`).

The development shallowly embeds `PackageManager` and the module-level
helper `get_dist_egg_link`.  Timestamps (Python floats used only through
ordering comparisons) are embedded as `Nat`.  Side effects (strategy
invocations, git operations, filesystem actions) are recorded as explicit
event traces; Python exceptions are embedded as `Except` results or an
`ok : Bool` flag together with the state reached.

External collaborators that are not part of the embedded source file are
modelled from the spec where the spec pins down their behaviour; each such
definition carries a doc comment starting with `Modelled from the spec:`.
-/

/-- Modelled from the spec: the Cache component (`_cache.py` is not under
`src/`).  A persistent key → timestamp store keyed by
`(packageName, isLocal)`, holding the last-seen modification time, last
successful install time and last successful build time; an absent key
reads as the zero timestamp, which we embed by letting the store be a
total function into `Nat` (zero-initialised for a fresh cache). -/
structure Cache where
  modifiedAt : String → Bool → Nat
  installedAt : String → Bool → Nat
  builtAt : String → Bool → Nat

/-- Modelled from the spec: `store_package_modified_timestamp(name, isLocal)`
records the package path's current modification time (spec §8, Scenario C:
after the mtime moved to `T1`, "cache updates to `T1`"). -/
def Cache.storeModified (c : Cache) (name : String) (isLocal : Bool) (t : Nat) : Cache :=
  { c with modifiedAt := fun n l => if n = name ∧ l = isLocal then t else c.modifiedAt n l }

/-- Modelled from the spec: `store_package_built_timestamp(name, isLocal)`
records the current time (`cache.builtAt = now`, spec §4.3). -/
def Cache.storeBuilt (c : Cache) (name : String) (isLocal : Bool) (t : Nat) : Cache :=
  { c with builtAt := fun n l => if n = name ∧ l = isLocal then t else c.builtAt n l }

/-- Observable side effects performed by `install()` / `build()`. -/
inductive Event where
  | npmConfigSet
  | removeEggLink (p : String)
  | installStrategy
  | buildStrategy
deriving DecidableEq

/-- Number of occurrences of an event in a trace. -/
def countEvent (e : Event) (l : List Event) : Nat :=
  (l.filter (fun x => decide (x = e))).length

/-- The part of a `PackageManager` instance state that `install()` and
`build()` read and write: `self._name`, `is_local_package()` (a pure
function of the configuration, frozen per instance), `self._cache`. -/
structure PMState where
  name : String
  isLocal : Bool
  cache : Cache

/-- Result of one `install()` / `build()` call: whether the call returned
normally (`ok = false` embeds a propagated Python exception), the instance
state reached, and the trace of side effects performed. -/
structure ActionResult where
  ok : Bool
  state : PMState
  events : List Event

/-- Shallow embedding of module-level `get_dist_egg_link` (lines 17-23).
The loop computes `egg_link = os.path.join(path_item, project_name +
".egg-link")` and tests `os.path.isfile(egg_link)`, but the body of the
`if` is the bare expression `egg_link` — not `return egg_link` — which has
no effect, so the loop always falls through to `return None`.  `sysPath`
embeds `sys.path` and `isFile` embeds `os.path.isfile`. -/
def get_dist_egg_link (sysPath : List String) (isFile : String → Bool)
    (projectName : String) : Option String :=
  match sysPath with
  | [] => none
  | path_item :: rest =>
    let egg_link := path_item ++ "/" ++ projectName ++ ".egg-link"
    if isFile egg_link then
      get_dist_egg_link rest isFile projectName
    else
      get_dist_egg_link rest isFile projectName

/-- Environment a single `install()` call runs in: `sys.path`,
`os.path.isfile`, whether `pkg_resources.get_distribution(self._name)`
returns a distribution (`distFound = false` embeds the
`DistributionNotFound` exception propagating), whether the kind-specific
installation routine completes without raising, and whether
`sys.platform` starts with `"win"`. -/
structure InstallEnv where
  sysPath : List String
  isFile : String → Bool
  distFound : Bool
  strategyOk : Bool
  isWindows : Bool

/-- Shallow embedding of `PackageManager.install` (lines 108-131).
`mtime` is `os.path.getmtime(self._path)`.  Gate: proceed only when the
cached modified timestamp is strictly below `mtime`.  Then: on Windows run
the npm script-shell preparation; look the distribution up and remove its
egg link when `get_dist_egg_link` yields one; run the kind-specific
installation routine; finally store the modified timestamp.  A raising
step aborts the call with the cache untouched. -/
def install (env : InstallEnv) (mtime : Nat) (s : PMState) : ActionResult :=
  if s.cache.modifiedAt s.name s.isLocal < mtime then
    let winEvents := if env.isWindows then [Event.npmConfigSet] else []
    if env.distFound then
      let eggEvents :=
        match get_dist_egg_link env.sysPath env.isFile s.name with
        | some p => [Event.removeEggLink p]
        | none => []
      if env.strategyOk then
        { ok := true
          state := { s with cache := s.cache.storeModified s.name s.isLocal mtime }
          events := winEvents ++ eggEvents ++ [Event.installStrategy] }
      else
        { ok := false, state := s, events := winEvents ++ eggEvents ++ [Event.installStrategy] }
    else
      { ok := false, state := s, events := winEvents }
  else
    { ok := true, state := s, events := [] }

/-- Environment a single `build()` call runs in: the kind-specific
`get_build_timestamp()` value, the current time used by the cache write,
and whether the kind-specific build routine completes without raising. -/
structure BuildEnv where
  buildTs : Nat
  now : Nat
  strategyOk : Bool

/-- Shallow embedding of `PackageManager.build` (lines 142-151).  Gate:
proceed only when the cached built timestamp is strictly below the
kind-specific build timestamp; then run the kind-specific build routine
and, on success, store the built timestamp. -/
def build (env : BuildEnv) (s : PMState) : ActionResult :=
  if s.cache.builtAt s.name s.isLocal < env.buildTs then
    if env.strategyOk then
      { ok := true
        state := { s with cache := s.cache.storeBuilt s.name s.isLocal env.now }
        events := [Event.buildStrategy] }
    else
      { ok := false, state := s, events := [Event.buildStrategy] }
  else
    { ok := true, state := s, events := [] }

/-- State of the git repository at the package path: its configured
remotes as (name, url) pairs.  Modelled from the spec (§4.2, §6): the
repository-access collaborator (the git library) is external; a working
tree keyed remotes by name and `clone_from` creates the default remote
`"origin"` pointing at the clone URL. -/
structure GitRepoState where
  remotes : List (String × String)
deriving DecidableEq

/-- Observable git operations performed by `checkout()`. -/
inductive GitEvent where
  | cloneFrom (url : String)
  | addRemote (name url : String)
  | renameRemote (old new : String)
  | fetch (remote : String)
  | checkoutRef (ref : String)
deriving DecidableEq

/-- Result of one `checkout()` call: the repository state reached and the
trace of git operations performed. -/
structure CheckoutResult where
  repo : GitRepoState
  events : List GitEvent
deriving DecidableEq

/-- Shallow embedding of the derived remote name
`self._config["github_branch"]["repository"].split("/")[0]`: the
substring of the repository identifier before its first '/'
(the whole string when it contains no '/'). -/
def remoteName (repository : String) : String :=
  String.mk (repository.toList.takeWhile (fun c => decide (c ≠ '/')))

/-- Shallow embedding of `PackageManager.checkout` (lines 62-95), run with
`self._github_manager` and `self._path` set.  `cloneUrl` is the value
resolved by the GithubManager collaborator; `existing` is `some repo`
when `Repo(self._path)` succeeds (the path holds a valid working tree)
and `none` when it raises `InvalidGitRepositoryError`.  In the valid
case: reuse the remote named `remoteName repository` when it exists,
otherwise add it with `cloneUrl`.  In the invalid case: clone fresh
(creating the default remote `"origin"`) and rename that remote.  Both
cases then fetch the remote and check out `remoteName/branch`. -/
def checkout (cloneUrl : String) (repository : String) (branch : String)
    (existing : Option GitRepoState) : CheckoutResult :=
  let rname := remoteName repository
  match existing with
  | some repo =>
    if repo.remotes.any (fun r => decide (r.1 = rname)) then
      { repo := repo
        events := [GitEvent.fetch rname, GitEvent.checkoutRef (rname ++ "/" ++ branch)] }
    else
      { repo := { remotes := repo.remotes ++ [(rname, cloneUrl)] }
        events := [GitEvent.addRemote rname cloneUrl, GitEvent.fetch rname,
                   GitEvent.checkoutRef (rname ++ "/" ++ branch)] }
  | none =>
    let cloned : GitRepoState := { remotes := [("origin", cloneUrl)] }
    let renamed : GitRepoState :=
      { remotes := cloned.remotes.map (fun r => if r.1 = "origin" then (rname, r.2) else r) }
    { repo := renamed
      events := [GitEvent.cloneFrom cloneUrl, GitEvent.renameRemote "origin" rname,
                 GitEvent.fetch rname, GitEvent.checkoutRef (rname ++ "/" ++ branch)] }

/-- Number of remotes carrying a given name in a repository state. -/
def countRemotesNamed (g : GitRepoState) (n : String) : Nat :=
  (g.remotes.filter (fun r => decide (r.1 = n))).length

/-- `countRemotesNamed` lifted to an optional repository state (no working
tree means no remotes). -/
def countRemotesNamedOpt : Option GitRepoState → String → Nat
  | none, _ => 0
  | some g, n => countRemotesNamed g n

/-- The remotes of an optional repository state. -/
def remotesOpt : Option GitRepoState → List (String × String)
  | none => []
  | some g => g.remotes

/-- Python's substring test `needle in haystack` on lists of characters:
true when `needle` occurs contiguously in `haystack` (always true for the
empty needle). -/
def pyInAux (needle : List Char) : List Char → Bool
  | [] => needle.isEmpty
  | c :: rest => needle.isPrefixOf (c :: rest) || pyInAux needle rest

/-- Python's substring test `needle in haystack` on strings. -/
def pyIn (needle haystack : String) : Bool :=
  pyInAux needle.toList haystack.toList

/-- Shallow embedding of `PackageManager.is_linked_to` (lines 166-180).
`npmListOutput` embeds `str(packages)` for the captured `npm list` output;
the code splits it on the literal two-character escape sequence and scans
the lines.  The trailing-slash normalisation first evaluates
`other_package_path[len(other_package_path) - 1]`, which on the empty
string is index -1 and raises `IndexError`; the embedding returns that
exception as an `Except.error`.  Otherwise a line matches when it contains
`other_package` and either contains the normalised path or the raw path
argument equals the empty string. -/
def is_linked_to (npmListOutput : String) (other_package : String)
    (other_package_path : String) : Except String Bool :=
  if other_package_path.length = 0 then
    Except.error "IndexError: string index out of range"
  else
    let path :=
      if other_package_path.back = '/' then other_package_path.dropRight 1
      else other_package_path
    Except.ok ((npmListOutput.splitOn "\\n").any (fun line =>
      pyIn other_package line && (pyIn path line || other_package_path == "")))

/-- Shallow embedding of `PackageManager.is_linked` (lines 153-164) given
the captured `npm ls -g` output: strip one trailing '/' from the path
string and test substring membership in the output.  (`str(self._path)` of
a set `pathlib.Path` is never empty, so the index in the normalisation is
in range.) -/
def is_linked (npmLsOutput : String) (pathStr : String) : Bool :=
  let path := if pathStr.back = '/' then pathStr.dropRight 1 else pathStr
  pyIn path npmLsOutput

/-- Modelled from the spec: a package descriptor from the configuration
(`_config_file.py` is not under `src/`): either `local_path` or a
`github_branch` table with `repository` and `branch`, plus the optional
`link_package` flag (spec §3). -/
structure PackageConfig where
  local_path : Option String
  github_branch : Option (String × String)
  link_package : Option Bool

/-- Modelled from the spec: the configuration collaborator, providing
`get_package` (the descriptor, or nothing when the package name is absent)
and `get_repo_storage_directory`. -/
structure Config where
  packages : String → Option PackageConfig
  repoStorageDirectory : Option String

/-- Shallow embedding of `PackageManager.is_local_package` (lines 103-106):
false with no configuration, otherwise whether `"local_path"` is a key of
the package's descriptor. -/
def is_local_package : Option PackageConfig → Bool
  | none => false
  | some pc => pc.local_path.isSome

/-- Shallow embedding of `PackageManager.shall_be_linked` (lines 182-187):
false with no configuration, otherwise true unless the descriptor holds
`link_package` and its value equals `False`. -/
def shall_be_linked : Option PackageConfig → Bool
  | none => false
  | some pc => !(pc.link_package == some false)

/-- Filesystem / network actions performed by the constructor. -/
inductive InitEvent where
  | mkdir (p : String)
  | checkoutAction
deriving DecidableEq

/-- Result of constructing `PackageManager(name)`: whether construction
returned normally (`ok = false` embeds `MissingPackageInConfigFile`
propagating), the value of the `self._path` attribute (`none` when the
assignment was never executed), and the trace of filesystem / network
actions performed. -/
structure InitResult where
  ok : Bool
  path : Option String
  events : List InitEvent

/-- Shallow embedding of `PackageManager.__init__` (lines 33-60).
`fsExists` embeds `pathlib.Path.exists`.  A missing descriptor raises
before the storage directory is read and before any filesystem or network
action.  A local package resolves its path from `local_path`.  A remote
package with a storage directory resolves `storage/name`, creates the
directory when absent, and checks out; with no storage directory the
branch is skipped entirely and `self._path` is never assigned. -/
def pm_init (cfg : Config) (fsExists : String → Bool) (name : String) : InitResult :=
  match cfg.packages name with
  | none => { ok := false, path := none, events := [] }
  | some pc =>
    if is_local_package (some pc) then
      { ok := true, path := pc.local_path, events := [] }
    else
      match cfg.repoStorageDirectory with
      | some dir =>
        let p := dir ++ "/" ++ name
        let mkdirEvents := if fsExists p then [] else [InitEvent.mkdir p]
        { ok := true, path := some p, events := mkdirEvents ++ [InitEvent.checkoutAction] }
      | none => { ok := true, path := none, events := [] }

/-- Accessing the `path` property (lines 189-191) reads `self._path`; when
the attribute was never assigned, Python raises `AttributeError`. -/
def pm_path : Option String → Except String String
  | none => Except.error "AttributeError"
  | some p => Except.ok p

/-- `get_last_modified_date` (lines 97-98) reads `self._path` before
calling `os.path.getmtime`; an unset attribute raises `AttributeError`. -/
def get_last_modified_date (fsMtime : String → Nat) :
    Option String → Except String Nat
  | none => Except.error "AttributeError"
  | some p => Except.ok (fsMtime p)

/-- An `install()` call first reads `self._path` in its gate; an unset
attribute raises `AttributeError` before anything else happens. -/
def install_op (env : InstallEnv) (fsMtime : String → Nat)
    (path : Option String) (s : PMState) : Except String ActionResult :=
  match path with
  | none => Except.error "AttributeError"
  | some p => Except.ok (install env (fsMtime p) s)

/-- A `build()` call computes the kind-specific build timestamp from the
package path (spec §4.3); an unset `self._path` raises `AttributeError`. -/
def build_op (env : BuildEnv) (path : Option String) (s : PMState) :
    Except String ActionResult :=
  match path with
  | none => Except.error "AttributeError"
  | some _ => Except.ok (build env s)

/-- An `is_linked()` call runs its query with `cwd=self._path`; an unset
attribute raises `AttributeError`. -/
def is_linked_op (npmLsOutput : String) (path : Option String) :
    Except String Bool :=
  match path with
  | none => Except.error "AttributeError"
  | some p => Except.ok (is_linked npmLsOutput p)

/-- A fresh cache: every key reads as the zero timestamp. -/
def cache0 : Cache :=
  { modifiedAt := fun _ _ => 0, installedAt := fun _ _ => 0, builtAt := fun _ _ => 0 }

/-- Concrete instance state used to instantiate the theorems. -/
def sExample : PMState := { name := "foo", isLocal := true, cache := cache0 }

/-- Concrete install environment: distribution found, strategy succeeds. -/
def envOkEx : InstallEnv :=
  { sysPath := [], isFile := fun _ => false, distFound := true,
    strategyOk := true, isWindows := false }

/-- Concrete install environment whose installation routine raises. -/
def envFailEx : InstallEnv := { envOkEx with strategyOk := false }

/-- Concrete build environment: build output newer than the cache. -/
def buildEnvEx : BuildEnv := { buildTs := 7, now := 9, strategyOk := true }

/-- A configuration declaring no packages at all. -/
def cfgEmpty : Config := { packages := fun _ => none, repoStorageDirectory := none }

/-- A remote package descriptor. -/
def pcRemote : PackageConfig :=
  { local_path := none, github_branch := some ("acme/widgets", "main"), link_package := none }

/-- A configuration declaring one remote package but no repository storage
directory. -/
def cfgRemoteNoStorage : Config :=
  { packages := fun n => if n = "widgets" then some pcRemote else none,
    repoStorageDirectory := none }

/-- A working tree that already carries the derived remote, pointing at a
stale URL. -/
def gW : GitRepoState := { remotes := [("acme", "https://old.example/acme/widgets.git")] }

theorem get_dist_egg_link_eq_none (sysPath : List String) (isFile : String → Bool)
    (projectName : String) : get_dist_egg_link sysPath isFile projectName = none := by
  induction sysPath with
  | nil => rfl
  | cons p rest ih =>
    unfold get_dist_egg_link
    simp only [ite_self]
    exact ih

theorem storeModified_read (c : Cache) (name : String) (isLocal : Bool) (t : Nat) :
    (c.storeModified name isLocal t).modifiedAt name isLocal = t := by
  simp [Cache.storeModified]

theorem storeBuilt_read (c : Cache) (name : String) (isLocal : Bool) (t : Nat) :
    (c.storeBuilt name isLocal t).builtAt name isLocal = t := by
  simp [Cache.storeBuilt]

theorem install_run_shape (env : InstallEnv) (mtime : Nat) (s : PMState)
    (hgate : s.cache.modifiedAt s.name s.isLocal < mtime)
    (hdist : env.distFound = true) (hok : env.strategyOk = true) :
    install env mtime s =
      { ok := true
        state := { s with cache := s.cache.storeModified s.name s.isLocal mtime }
        events := (if env.isWindows then [Event.npmConfigSet] else [])
                    ++ [Event.installStrategy] } := by
  unfold install
  rw [if_pos hgate, get_dist_egg_link_eq_none]
  simp [hdist, hok]

theorem install_fail_shape (env : InstallEnv) (mtime : Nat) (s : PMState)
    (hgate : s.cache.modifiedAt s.name s.isLocal < mtime)
    (hdist : env.distFound = true) (hfail : env.strategyOk = false) :
    install env mtime s =
      { ok := false
        state := s
        events := (if env.isWindows then [Event.npmConfigSet] else [])
                    ++ [Event.installStrategy] } := by
  unfold install
  rw [if_pos hgate, get_dist_egg_link_eq_none]
  simp [hdist, hfail]

/-- C1: for every package whose cached modified timestamp is strictly less
than the current filesystem modification time of its path, `install()`
invokes the kind-specific install strategy exactly once and afterwards the
cached modified timestamp equals that modification time; an immediately
following second call with no further modification-time change invokes no
strategy.  (The distribution lookup and the installation routine complete
normally; a raising routine is the subject of the error-handling claim.) -/
theorem install_gate_runs_once (env : InstallEnv) (mtime : Nat) (s : PMState)
    (hgate : s.cache.modifiedAt s.name s.isLocal < mtime)
    (hdist : env.distFound = true) (hok : env.strategyOk = true) :
    countEvent Event.installStrategy (install env mtime s).events = 1
    ∧ (install env mtime s).state.cache.modifiedAt s.name s.isLocal = mtime
    ∧ countEvent Event.installStrategy
        (install env mtime (install env mtime s).state).events = 0 := by
  have h1 := install_run_shape env mtime s hgate hdist hok
  refine ⟨?_, ?_, ?_⟩
  · rw [h1]
    cases hw : env.isWindows <;> simp [countEvent]
  · rw [h1]
    exact storeModified_read s.cache s.name s.isLocal mtime
  · rw [h1]
    unfold install
    rw [if_neg]
    · simp [countEvent]
    · simp [Cache.storeModified]

/-- C1 witness: the theorem instantiated at a fresh package whose path
modification time is 5. -/
theorem install_gate_runs_once_witness :
    (sExample.cache.modifiedAt sExample.name sExample.isLocal < 5
     ∧ envOkEx.distFound = true ∧ envOkEx.strategyOk = true)
    ∧ (countEvent Event.installStrategy (install envOkEx 5 sExample).events = 1
       ∧ (install envOkEx 5 sExample).state.cache.modifiedAt sExample.name sExample.isLocal = 5
       ∧ countEvent Event.installStrategy
           (install envOkEx 5 (install envOkEx 5 sExample).state).events = 0) :=
  ⟨⟨by decide, rfl, rfl⟩, install_gate_runs_once envOkEx 5 sExample (by decide) rfl rfl⟩

/-- C3: if the kind-specific install strategy raises, `install()` aborts
without writing any cache timestamp: the call fails, the instance state
(hence the cache) is exactly the one before the call, and a next run with
the same modification time invokes the strategy again. -/
theorem install_failure_no_cache_write (env : InstallEnv) (mtime : Nat) (s : PMState)
    (hgate : s.cache.modifiedAt s.name s.isLocal < mtime)
    (hdist : env.distFound = true) (hfail : env.strategyOk = false) :
    (install env mtime s).ok = false
    ∧ (install env mtime s).state = s
    ∧ countEvent Event.installStrategy
        (install env mtime (install env mtime s).state).events = 1 := by
  have h1 := install_fail_shape env mtime s hgate hdist hfail
  refine ⟨by rw [h1], by rw [h1], ?_⟩
  rw [h1]
  show countEvent Event.installStrategy (install env mtime s).events = 1
  rw [h1]
  cases hw : env.isWindows <;> simp [countEvent]

/-- C3 witness: the theorem instantiated at a fresh package whose path
modification time is 5 and whose installation routine raises. -/
theorem install_failure_no_cache_write_witness :
    (sExample.cache.modifiedAt sExample.name sExample.isLocal < 5
     ∧ envFailEx.distFound = true ∧ envFailEx.strategyOk = false)
    ∧ ((install envFailEx 5 sExample).ok = false
       ∧ (install envFailEx 5 sExample).state = sExample
       ∧ countEvent Event.installStrategy
           (install envFailEx 5 (install envFailEx 5 sExample).state).events = 1) :=
  ⟨⟨by decide, rfl, rfl⟩, install_failure_no_cache_write envFailEx 5 sExample (by decide) rfl rfl⟩

/-- C9: the claim fails on the code.  The loop body of `get_dist_egg_link`
is the bare expression `egg_link`, not `return egg_link`, so the function
returns `None` even when the egg-link marker exists on the module search
path; consequently an `install()` call whose gate is open performs no
marker removal even though the marker file is present. -/
theorem egg_link_never_removed :
    (fun p => p == "/site-packages/mypkg.egg-link")
        ("/site-packages" ++ "/" ++ "mypkg" ++ ".egg-link") = true
    ∧ get_dist_egg_link ["/site-packages"]
        (fun p => p == "/site-packages/mypkg.egg-link") "mypkg" = none
    ∧ (install
        { sysPath := ["/site-packages"]
          isFile := fun p => p == "/site-packages/mypkg.egg-link"
          distFound := true, strategyOk := true, isWindows := false }
        5 { name := "mypkg", isLocal := true, cache := cache0 }).events
      = [Event.installStrategy] :=
  ⟨by decide, by decide, by decide⟩

/-- C4: `build()` skips entirely — invokes no build routine and writes no
cache entry — if and only if the cached built timestamp for
`(name, isLocal)` is at least the kind-specific build timestamp; otherwise
it invokes the kind-specific build routine exactly once and, on success,
stores the built timestamp (on failure the state is untouched). -/
theorem build_gate_spec (env : BuildEnv) (s : PMState) :
    ((build env s).events = [] ∧ (build env s).state = s ↔
        env.buildTs ≤ s.cache.builtAt s.name s.isLocal)
    ∧ (s.cache.builtAt s.name s.isLocal < env.buildTs →
        (build env s).events = [Event.buildStrategy]
        ∧ (env.strategyOk = true →
            (build env s).state.cache.builtAt s.name s.isLocal = env.now)
        ∧ (env.strategyOk = false → (build env s).state = s)) := by
  by_cases hlt : s.cache.builtAt s.name s.isLocal < env.buildTs
  · cases hok : env.strategyOk
    · simp [build, hlt, hok]
    · simp [build, hlt, hok]
      exact storeBuilt_read s.cache s.name s.isLocal env.now
  · simp [build, hlt]
    omega

/-- C4 witness: the theorem instantiated at a fresh package with build
timestamp 7 and clock 9: the gate is open, the build routine runs and the
built timestamp is stored. -/
theorem build_gate_spec_witness :
    sExample.cache.builtAt sExample.name sExample.isLocal < buildEnvEx.buildTs
    ∧ (build buildEnvEx sExample).events = [Event.buildStrategy]
    ∧ (build buildEnvEx sExample).state.cache.builtAt sExample.name sExample.isLocal
        = buildEnvEx.now :=
  ⟨by decide,
   ((build_gate_spec buildEnvEx sExample).2 (by decide)).1,
   ((build_gate_spec buildEnvEx sExample).2 (by decide)).2.1 rfl⟩

/-- C5: the claim fails on the code.  With the empty path argument (the
parameter's default), `is_linked_to` evaluates
`other_package_path[len(other_package_path) - 1]` — index -1 of the empty
string — while normalising the trailing slash, and raises `IndexError`
before scanning any line; the claim instead requires it to return true
here, since the listing holds a line naming the package and the path is
the empty string. -/
theorem is_linked_to_empty_path_raises :
    pyIn "mypkg" "+-- mypkg@1.0.0" = true
    ∧ is_linked_to "+-- mypkg@1.0.0" "mypkg" ""
        = Except.error "IndexError: string index out of range" :=
  ⟨by decide, rfl⟩

/-- C7: constructing an orchestrator for a package name absent from the
configuration raises `MissingPackageInConfigFile` at construction time,
before any filesystem or network action is performed for that package, and
never resolves a path. -/
theorem init_missing_package_fatal (cfg : Config) (fsExists : String → Bool)
    (name : String) (h : cfg.packages name = none) :
    (pm_init cfg fsExists name).ok = false
    ∧ (pm_init cfg fsExists name).events = []
    ∧ (pm_init cfg fsExists name).path = none := by
  simp [pm_init, h]

/-- C7 witness: the theorem instantiated at a configuration declaring no
packages and the name of an undeclared package. -/
theorem init_missing_package_fatal_witness :
    cfgEmpty.packages "ghost" = none
    ∧ ((pm_init cfgEmpty (fun _ => false) "ghost").ok = false
       ∧ (pm_init cfgEmpty (fun _ => false) "ghost").events = []
       ∧ (pm_init cfgEmpty (fun _ => false) "ghost").path = none) :=
  ⟨rfl, init_missing_package_fatal cfgEmpty (fun _ => false) "ghost" rfl⟩

/-- C8: for a package present in the configuration, `shall_be_linked` — a
function of the configuration alone — returns false exactly when the
descriptor explicitly sets `link_package` to false, and returns true when
the key is absent or set to true. -/
theorem shall_be_linked_spec (pc : PackageConfig) :
    (shall_be_linked (some pc) = false ↔ pc.link_package = some false)
    ∧ (pc.link_package = none → shall_be_linked (some pc) = true)
    ∧ (pc.link_package = some true → shall_be_linked (some pc) = true) := by
  rcases h : pc.link_package with _ | b
  · simp [shall_be_linked, h]
  · cases b <;> simp [shall_be_linked, h]

/-- C8 witness: a descriptor without the `link_package` key is linked; one
explicitly disabling it is not. -/
theorem shall_be_linked_spec_witness :
    pcRemote.link_package = none ∧ shall_be_linked (some pcRemote) = true :=
  ⟨rfl, (shall_be_linked_spec pcRemote).2.1 rfl⟩

/-- C10: constructing a remote (non-local) package while the configuration
provides no repository storage directory completes without resolving any
path or performing any filesystem or network action, leaves the path
attribute unset, and every subsequent path-dependent operation — the
`path` property, `get_last_modified_date`, `install`, `build`,
`is_linked` — raises `AttributeError` rather than operating on a resolved
path. -/
theorem init_remote_no_storage (cfg : Config) (fsExists : String → Bool)
    (fsMtime : String → Nat) (env : InstallEnv) (benv : BuildEnv)
    (npmLs : String) (name : String) (pc : PackageConfig) (s : PMState)
    (hpkg : cfg.packages name = some pc)
    (hlocal : pc.local_path = none)
    (hstore : cfg.repoStorageDirectory = none) :
    (pm_init cfg fsExists name).ok = true
    ∧ (pm_init cfg fsExists name).path = none
    ∧ (pm_init cfg fsExists name).events = []
    ∧ pm_path (pm_init cfg fsExists name).path = Except.error "AttributeError"
    ∧ get_last_modified_date fsMtime (pm_init cfg fsExists name).path
        = Except.error "AttributeError"
    ∧ install_op env fsMtime (pm_init cfg fsExists name).path s
        = Except.error "AttributeError"
    ∧ build_op benv (pm_init cfg fsExists name).path s
        = Except.error "AttributeError"
    ∧ is_linked_op npmLs (pm_init cfg fsExists name).path
        = Except.error "AttributeError" := by
  have h : pm_init cfg fsExists name = { ok := true, path := none, events := [] } := by
    simp [pm_init, hpkg, is_local_package, hlocal, hstore]
  rw [h]
  exact ⟨rfl, rfl, rfl, rfl, rfl, rfl, rfl, rfl⟩

/-- C10 witness: the theorem instantiated at a configuration that declares
the remote package `"widgets"` but no repository storage directory. -/
theorem init_remote_no_storage_witness :
    (cfgRemoteNoStorage.packages "widgets" = some pcRemote
     ∧ pcRemote.local_path = none
     ∧ cfgRemoteNoStorage.repoStorageDirectory = none)
    ∧ ((pm_init cfgRemoteNoStorage (fun _ => false) "widgets").ok = true
       ∧ (pm_init cfgRemoteNoStorage (fun _ => false) "widgets").path = none
       ∧ (pm_init cfgRemoteNoStorage (fun _ => false) "widgets").events = []
       ∧ pm_path (pm_init cfgRemoteNoStorage (fun _ => false) "widgets").path
           = Except.error "AttributeError"
       ∧ get_last_modified_date (fun _ => 0)
           (pm_init cfgRemoteNoStorage (fun _ => false) "widgets").path
           = Except.error "AttributeError"
       ∧ install_op envOkEx (fun _ => 0)
           (pm_init cfgRemoteNoStorage (fun _ => false) "widgets").path sExample
           = Except.error "AttributeError"
       ∧ build_op buildEnvEx
           (pm_init cfgRemoteNoStorage (fun _ => false) "widgets").path sExample
           = Except.error "AttributeError"
       ∧ is_linked_op ""
           (pm_init cfgRemoteNoStorage (fun _ => false) "widgets").path
           = Except.error "AttributeError") :=
  ⟨⟨rfl, rfl, rfl⟩,
   init_remote_no_storage cfgRemoteNoStorage (fun _ => false) (fun _ => 0)
     envOkEx buildEnvEx "" "widgets" pcRemote sExample rfl rfl rfl⟩

theorem checkout_existing_reuse (url repository branch : String) (g : GitRepoState)
    (h : g.remotes.any (fun r => decide (r.1 = remoteName repository)) = true) :
    checkout url repository branch (some g) =
      { repo := g
        events := [GitEvent.fetch (remoteName repository),
                   GitEvent.checkoutRef (remoteName repository ++ "/" ++ branch)] } := by
  simp [checkout, h]

theorem checkout_existing_add (url repository branch : String) (g : GitRepoState)
    (h : g.remotes.any (fun r => decide (r.1 = remoteName repository)) = false) :
    checkout url repository branch (some g) =
      { repo := { remotes := g.remotes ++ [(remoteName repository, url)] }
        events := [GitEvent.addRemote (remoteName repository) url,
                   GitEvent.fetch (remoteName repository),
                   GitEvent.checkoutRef (remoteName repository ++ "/" ++ branch)] } := by
  simp [checkout, h]

theorem checkout_clone (url repository branch : String) :
    checkout url repository branch none =
      { repo := { remotes := [(remoteName repository, url)] }
        events := [GitEvent.cloneFrom url,
                   GitEvent.renameRemote "origin" (remoteName repository),
                   GitEvent.fetch (remoteName repository),
                   GitEvent.checkoutRef (remoteName repository ++ "/" ++ branch)] } := by
  simp [checkout]

theorem count_pos_of_any (g : GitRepoState) (n : String)
    (h : g.remotes.any (fun r => decide (r.1 = n)) = true) :
    0 < countRemotesNamed g n := by
  rcases List.any_eq_true.mp h with ⟨x, hx, hpx⟩
  have hm : x ∈ g.remotes.filter (fun r => decide (r.1 = n)) :=
    List.mem_filter.mpr ⟨hx, hpx⟩
  exact List.length_pos.mpr (List.ne_nil_of_mem hm)

theorem any_of_count_pos (g : GitRepoState) (n : String)
    (h : 0 < countRemotesNamed g n) :
    g.remotes.any (fun r => decide (r.1 = n)) = true := by
  unfold countRemotesNamed at h
  rcases hf : g.remotes.filter (fun r => decide (r.1 = n)) with _ | ⟨x, xs⟩
  · rw [hf] at h
    simp at h
  · have hx : x ∈ g.remotes.filter (fun r => decide (r.1 = n)) := by
      rw [hf]
      exact List.mem_cons_self x xs
    have hmem := List.mem_filter.mp hx
    exact List.any_eq_true.mpr ⟨x, hmem.1, hmem.2⟩

theorem count_eq_zero_of_any_false (g : GitRepoState) (n : String)
    (h : g.remotes.any (fun r => decide (r.1 = n)) = false) :
    countRemotesNamed g n = 0 := by
  unfold countRemotesNamed
  have hnil : g.remotes.filter (fun r => decide (r.1 = n)) = [] := by
    rw [List.filter_eq_nil_iff]
    intro a ha
    have := (List.any_eq_false.mp h) a ha
    simpa using this
  rw [hnil]
  rfl

theorem checkout_count_one (url repository branch : String) (g0 : Option GitRepoState)
    (hg : countRemotesNamedOpt g0 (remoteName repository) ≤ 1) :
    countRemotesNamed (checkout url repository branch g0).repo (remoteName repository) = 1 := by
  cases g0 with
  | none =>
    rw [checkout_clone]
    simp [countRemotesNamed]
  | some g =>
    cases hA : g.remotes.any (fun r => decide (r.1 = remoteName repository)) with
    | true =>
      rw [checkout_existing_reuse url repository branch g hA]
      show countRemotesNamed g (remoteName repository) = 1
      have h1 := count_pos_of_any g (remoteName repository) hA
      simp only [countRemotesNamedOpt] at hg
      omega
    | false =>
      rw [checkout_existing_add url repository branch g hA]
      have h0 := count_eq_zero_of_any_false g (remoteName repository) hA
      unfold countRemotesNamed at h0 ⊢
      rw [List.filter_append, List.length_append, h0]
      simp

theorem checkout_mem_preserved (url repository branch : String) (g : GitRepoState)
    (x : String × String) (hx : x ∈ g.remotes) :
    x ∈ (checkout url repository branch (some g)).repo.remotes := by
  cases hA : g.remotes.any (fun r => decide (r.1 = remoteName repository)) with
  | true =>
    rw [checkout_existing_reuse url repository branch g hA]
    exact hx
  | false =>
    rw [checkout_existing_add url repository branch g hA]
    exact List.mem_append_left _ hx

/-- C2: running `checkout()` twice in a row on the same package — starting
from any working-tree state carrying at most one remote of the derived
name, or from no working tree — never leaves two remotes with the derived
remote name (exactly one remains); the second run performs only a fetch
plus a checkout of the remote branch ref and changes the repository state
not at all, and a remote of that name existing before the first run is
reused as-is, its (name, url) pair surviving both runs even though the
freshly resolved clone URLs of the two runs may both differ from it. -/
theorem checkout_twice_idempotent (url1 url2 repository branch : String)
    (g0 : Option GitRepoState)
    (hg : countRemotesNamedOpt g0 (remoteName repository) ≤ 1) :
    countRemotesNamed
        (checkout url2 repository branch (some (checkout url1 repository branch g0).repo)).repo
        (remoteName repository) = 1
    ∧ (checkout url2 repository branch (some (checkout url1 repository branch g0).repo)).events
        = [GitEvent.fetch (remoteName repository),
           GitEvent.checkoutRef (remoteName repository ++ "/" ++ branch)]
    ∧ (checkout url2 repository branch (some (checkout url1 repository branch g0).repo)).repo
        = (checkout url1 repository branch g0).repo
    ∧ ∀ u, (remoteName repository, u) ∈ remotesOpt g0 →
        (remoteName repository, u) ∈
          (checkout url2 repository branch
            (some (checkout url1 repository branch g0).repo)).repo.remotes := by
  have h1 := checkout_count_one url1 repository branch g0 hg
  have hA : (checkout url1 repository branch g0).repo.remotes.any
      (fun r => decide (r.1 = remoteName repository)) = true :=
    any_of_count_pos _ _ (by omega)
  rw [checkout_existing_reuse url2 repository branch _ hA]
  refine ⟨h1, rfl, rfl, ?_⟩
  intro u hu
  cases g0 with
  | none =>
    simp [remotesOpt] at hu
  | some g =>
    simp only [remotesOpt] at hu
    exact checkout_mem_preserved url1 repository branch g _ hu

/-- C2 witness: the theorem instantiated at a working tree that already
carries the derived remote `"acme"` pointing at a stale URL; both runs
resolve fresh, different clone URLs, yet the stale pair survives and only
fetch plus checkout-ref happen on the second run. -/
theorem checkout_twice_idempotent_witness :
    countRemotesNamedOpt (some gW) (remoteName "acme/widgets") ≤ 1
    ∧ countRemotesNamed
        (checkout "https://new2" "acme/widgets" "main"
          (some (checkout "https://new1" "acme/widgets" "main" (some gW)).repo)).repo
        (remoteName "acme/widgets") = 1
    ∧ (checkout "https://new2" "acme/widgets" "main"
        (some (checkout "https://new1" "acme/widgets" "main" (some gW)).repo)).events
        = [GitEvent.fetch (remoteName "acme/widgets"),
           GitEvent.checkoutRef (remoteName "acme/widgets" ++ "/" ++ "main")]
    ∧ (checkout "https://new2" "acme/widgets" "main"
        (some (checkout "https://new1" "acme/widgets" "main" (some gW)).repo)).repo
        = (checkout "https://new1" "acme/widgets" "main" (some gW)).repo
    ∧ ("acme", "https://old.example/acme/widgets.git") ∈
        (checkout "https://new2" "acme/widgets" "main"
          (some (checkout "https://new1" "acme/widgets" "main" (some gW)).repo)).repo.remotes :=
  ⟨by decide,
   (checkout_twice_idempotent "https://new1" "https://new2" "acme/widgets" "main"
      (some gW) (by decide)).1,
   (checkout_twice_idempotent "https://new1" "https://new2" "acme/widgets" "main"
      (some gW) (by decide)).2.1,
   (checkout_twice_idempotent "https://new1" "https://new2" "acme/widgets" "main"
      (some gW) (by decide)).2.2.1,
   (checkout_twice_idempotent "https://new1" "https://new2" "acme/widgets" "main"
      (some gW) (by decide)).2.2.2 "https://old.example/acme/widgets.git" (by decide)⟩

/-- C6: when the local path does not hold a valid working tree,
`checkout()` clones fresh from the resolved clone URL into that path and
then renames the resulting default remote `"origin"` to the derived remote
name — the substring of the repository identifier before '/' — which ends
up as the sole remote, pointing at the clone URL. -/
theorem checkout_fresh_clone (cloneUrl repository branch : String) :
    (checkout cloneUrl repository branch none).events
      = [GitEvent.cloneFrom cloneUrl,
         GitEvent.renameRemote "origin" (remoteName repository),
         GitEvent.fetch (remoteName repository),
         GitEvent.checkoutRef (remoteName repository ++ "/" ++ branch)]
    ∧ (checkout cloneUrl repository branch none).repo
      = { remotes := [(remoteName repository, cloneUrl)] } := by
  rw [checkout_clone]
  exact ⟨rfl, rfl⟩
